/-
  Verification development for plex-playlist-fix.

  Shallow embedding of the reconciliation / fuzzy-matching core of
  plex-playlist-fix.py, together with proofs and refutations of the
  specified properties.  Remote Plex calls (artist search, playlist
  lookup, addItems) and interactive confirmation are modelled as an
  explicit environment record; everything else is translated directly
  from the Python source.
-/
import Mathlib

set_option maxRecDepth 4000

/-- A desired track, parsed from one CSV row (source: read_csv_files,
line 99: a dict with keys title and artist). -/
structure Song where
  title : String
  artist : String
deriving DecidableEq

/-- A track object living in the Plex library.  `ratingKey` stands for
the opaque Plex identifier; the matcher only ever reads `title`. -/
structure PlexTrack where
  title : String
  artist : String
  ratingKey : Nat
deriving DecidableEq

/-- An artist entity returned by a Plex artist search, carrying its
track list (source: artist_results[0].tracks()). -/
structure Artist where
  name : String
  tracks : List PlexTrack
deriving DecidableEq

/-- The external world as seen by the script: playlist state and the
remote Plex calls.  `search` models plex.library.section('Music').search
(libtype = artist) with `none` standing for a BadRequest raised inside
the try block of _get_available_plex_tracks; `searchArtists` models the
separate searchArtists call of add_tracks_to_playlist (no try block
there); `searchTracks` models the free-text track search the library
client offers (the script never calls it); `addItemsOk` tells whether
playlist.addItems succeeds as a batch; `addItemOk` tells whether one
single item could be added (the script has no per-item path);
`confirmed` is the y/N answer of the confirmation prompt. -/
structure Env where
  playlistExists : Bool
  items : List (String × String)
  search : String → Option (List Artist)
  searchArtists : String → List Artist
  searchTracks : String → List PlexTrack
  addItemsOk : Bool
  addItemOk : PlexTrack → Bool
  confirmed : Bool

/-! ## Normalizer (sanitize_string, lines 140-154) -/

/-- Python string.punctuation with the period removed, as the predicate
used by str.maketrans in sanitize_string line 142: ASCII codes 33-47
without 46, 58-64, 91-96 and 123-126. -/
def isPyPunctNoPeriod (c : Char) : Bool :=
  (decide (33 ≤ c.toNat) && decide (c.toNat ≤ 47) && decide (c.toNat ≠ 46)) ||
  (decide (58 ≤ c.toNat) && decide (c.toNat ≤ 64)) ||
  (decide (91 ≤ c.toNat) && decide (c.toNat ≤ 96)) ||
  (decide (123 ≤ c.toNat) && decide (c.toNat ≤ 126))

/-- input_string.translate(translator), line 145: drop every ASCII
punctuation character except the period. -/
def removePunct (s : List Char) : List Char :=
  s.filter (fun c => !isPyPunctNoPeriod c)

/-- sanitized_string.replace("?", ""), line 148 (a no-op after
removePunct, kept for fidelity). -/
def removeQuestion (s : List Char) : List Char :=
  s.filter (fun c => decide (c.toNat ≠ 63))

/-- sanitized_string.replace("¿", ""), line 149; U+00BF has code 191. -/
def removeInverted (s : List Char) : List Char :=
  s.filter (fun c => decide (c.toNat ≠ 191))

/-- Modelled from the spec: the external unidecode library (not part of
this repository; spec section 4.1: "transliterate accented/diacritic
characters to their closest unaccented ASCII equivalents").  Finite
table restricted to the characters appearing in this development,
matching real unidecode output: identity on ASCII, accented vowels to
plain vowels, curly quotes U+2018/U+2019 to the ASCII apostrophe,
guillemet U+00AB to "<<", U+00BF to "?", anything else unlisted to the
empty string. -/
def unidecodeChar (c : Char) : List Char :=
  if c.toNat < 128 then [c]
  else if c.toNat = 8217 then [Char.ofNat 39]
  else if c.toNat = 8216 then [Char.ofNat 39]
  else if c.toNat = 233 then [Char.ofNat 101]
  else if c.toNat = 232 then [Char.ofNat 101]
  else if c.toNat = 225 then [Char.ofNat 97]
  else if c.toNat = 171 then [Char.ofNat 60, Char.ofNat 60]
  else if c.toNat = 191 then [Char.ofNat 63]
  else []

/-- unidecode.unidecode applied to a whole string, line 152. -/
def unidecodeList (s : List Char) : List Char :=
  s.flatMap unidecodeChar

/-- sanitize_string, lines 140-154, on the character list: translate
away punctuation except periods, drop "?" and U+00BF, then
transliterate. -/
def sanitizeList (s : List Char) : List Char :=
  unidecodeList (removeInverted (removeQuestion (removePunct s)))

/-- sanitize_string, lines 140-154. -/
def sanitize_string (s : String) : String :=
  String.mk (sanitizeList s.data)

/-! ## Similarity ratio (difflib.SequenceMatcher.ratio, used line 131)

SequenceMatcher(None, a, b).ratio() is 2*M/(len a + len b) where M is
the total size of the Ratcliff-Obershelp matching blocks: recursively
take the longest matching block (earliest in a, then earliest in b,
among maximal ones) and recurse on both sides.  Strings here are far
below the 200-character autojunk cutoff, so no junk heuristic applies. -/

/-- Length of the longest common prefix of two character lists. -/
def commonPrefixLen : List Char → List Char → Nat
  | [], _ => 0
  | _ :: _, [] => 0
  | a :: as, b :: bs => if a = b then commonPrefixLen as bs + 1 else 0

/-- difflib find_longest_match on full sequences, brute force: the
maximal matching block (i, j, k), earliest start in a then in b. -/
def findLongestMatch (a b : List Char) : Nat × Nat × Nat :=
  (List.range a.length).foldl
    (fun best i =>
      (List.range b.length).foldl
        (fun best2 j =>
          if best2.2.2 < commonPrefixLen (a.drop i) (b.drop j) then
            (i, j, commonPrefixLen (a.drop i) (b.drop j))
          else best2)
        best)
    (0, 0, 0)

/-- Total matched characters of the Ratcliff-Obershelp decomposition,
with explicit fuel (the recursion depth is below a.length, so
a.length + 1 units of fuel always suffice). -/
def matchTotalFuel : Nat → List Char → List Char → Nat
  | 0, _, _ => 0
  | fuel + 1, a, b =>
    if (findLongestMatch a b).2.2 = 0 then 0
    else
      matchTotalFuel fuel (a.take (findLongestMatch a b).1)
          (b.take (findLongestMatch a b).2.1)
        + (findLongestMatch a b).2.2
        + matchTotalFuel fuel
            (a.drop ((findLongestMatch a b).1 + (findLongestMatch a b).2.2))
            (b.drop ((findLongestMatch a b).2.1 + (findLongestMatch a b).2.2))

/-- Total matched characters between two sequences. -/
def matchTotal (a b : List Char) : Nat :=
  matchTotalFuel (a.length + 1) a b

/-- SequenceMatcher(None, a, b).ratio(): 2*M/T, and 1 when both inputs
are empty (difflib _calculate_ratio). -/
def ratioQ (a b : List Char) : ℚ :=
  if a.length + b.length = 0 then 1
  else 2 * (matchTotal a b : ℚ) / ((a.length : ℚ) + (b.length : ℚ))

/-! ## Matcher (get_best_matching_track, lines 125-138) -/

/-- The similarity score line 131 computes for one candidate: the
requested title is passed through RAW, only the candidate title is
sanitized (line 130). -/
def scoreOf (title : String) (pt : PlexTrack) : ℚ :=
  ratioQ title.data (sanitize_string pt.title).data

/-- One iteration of the loop of get_best_matching_track, lines
129-136: strictly better ratio replaces the current best. -/
def matchStep (title : String) (acc : Option PlexTrack × ℚ) (pt : PlexTrack) :
    Option PlexTrack × ℚ :=
  if acc.2 < scoreOf title pt then (some pt, scoreOf title pt) else acc

/-- The (best_match, highest_ratio) pair after the whole loop of
get_best_matching_track, starting from (None, 0). -/
def bestPair (title : String) (cs : List PlexTrack) : Option PlexTrack × ℚ :=
  cs.foldl (matchStep title) (none, 0)

/-- get_best_matching_track, lines 125-138: returns best_match. -/
def get_best_matching_track (title : String) (cs : List PlexTrack) :
    Option PlexTrack :=
  (bestPair title cs).1

/-! ## PlaylistState (get_current_playlist_songs, lines 118-123) -/

/-- get_current_playlist_songs: the empty list when fetch_playlist
finds no playlist of that name (lines 120-122), otherwise the raw
"artist - title" string of every current item (line 123). -/
def get_current_playlist_songs (env : Env) : List String :=
  if env.playlistExists then
    env.items.map (fun p => p.1 ++ " - " ++ p.2)
  else []

/-! ## ReconciliationEngine (_get_available_plex_tracks, lines 51-82) -/

/-- The dedup key of line 56: sanitized artist, RAW title. -/
def trackString (s : Song) : String :=
  sanitize_string s.artist ++ " - " ++ s.title

/-- What lines 54-80 decide for one song: skipped because the key is in
the snapshot, found with a best match, or missing (artist absent, no
positive-ratio track, or BadRequest during the search). -/
inductive Fate where
  | present
  | found (t : PlexTrack)
  | missing
deriving DecidableEq

/-- True exactly on Fate.found. -/
def Fate.isFound : Fate → Bool
  | Fate.found _ => true
  | _ => false

/-- One iteration of the loop of _get_available_plex_tracks: line 57
membership test, line 62 artist search (none = BadRequest, line 77),
line 66 track matching within the first artist result. -/
def songFate (env : Env) (snap : List String) (s : Song) : Fate :=
  if trackString s ∈ snap then Fate.present
  else
    match env.search (sanitize_string s.artist) with
    | none => Fate.missing
    | some [] => Fate.missing
    | some (a :: _) =>
      match get_best_matching_track s.title a.tracks with
      | some t => Fate.found t
      | none => Fate.missing

/-- The loop of _get_available_plex_tracks over the backlog, with the
snapshot fixed (it is computed once, line 53): accumulates
(plex_tracks, missing_tracks, found_tracks) in backlog order. -/
def engineLoop (env : Env) (snap : List String) :
    List Song → List PlexTrack × List Song × List Song
  | [] => ([], [], [])
  | s :: rest =>
    match songFate env snap s with
    | Fate.present => engineLoop env snap rest
    | Fate.found t =>
      (t :: (engineLoop env snap rest).1, (engineLoop env snap rest).2.1,
        s :: (engineLoop env snap rest).2.2)
    | Fate.missing =>
      ((engineLoop env snap rest).1, s :: (engineLoop env snap rest).2.1,
        (engineLoop env snap rest).2.2)

/-- _get_available_plex_tracks, lines 51-82: returns
(plex_tracks, missing_tracks, found_tracks). -/
def get_available_plex_tracks (env : Env) (songs : List Song) :
    List PlexTrack × List Song × List Song :=
  engineLoop env (get_current_playlist_songs env) songs

/-- The songs of the backlog whose line-56 key sits in the snapshot:
exactly the entries line 57-58 silently skips.  The engine never
returns this list; it is the derived already-present classification. -/
def alreadyPresentSongs (env : Env) (songs : List Song) : List Song :=
  songs.filter (fun s => decide (trackString s ∈ get_current_playlist_songs env))

/-- The artist queries the loop issues, in order: one line-62 search per
song whose key is not in the snapshot (a skipped song reaches line 58's
continue before any search). -/
def searchedArtistsLoop (snap : List String) : List Song → List String
  | [] => []
  | s :: rest =>
    if trackString s ∈ snap then searchedArtistsLoop snap rest
    else sanitize_string s.artist :: searchedArtistsLoop snap rest

/-- The artist queries _get_available_plex_tracks issues for a backlog. -/
def searchedArtists (env : Env) (songs : List Song) : List String :=
  searchedArtistsLoop (get_current_playlist_songs env) songs

/-- Modelled from the spec: the NormalizedKey of section 3,
"<normalized artist> - <normalized title>" with BOTH sides normalized
(the source key, trackString, normalizes only the artist). -/
def specKey (s : Song) : String :=
  sanitize_string s.artist ++ " - " ++ sanitize_string s.title

/-! ## Mutator (add_tracks_to_playlist, lines 156-192) -/

/-- The track_objects loop of lines 173-185: for each song, searchArtists
on the sanitized artist, then the best match among the first result's
tracks; songs with no artist or no match are dropped (logged only). -/
def track_objects (env : Env) : List Song → List PlexTrack
  | [] => []
  | t :: rest =>
    match env.searchArtists (sanitize_string t.artist) with
    | [] => track_objects env rest
    | a :: _ =>
      match get_best_matching_track t.title a.tracks with
      | some m => m :: track_objects env rest
      | none => track_objects env rest

/-- add_tracks_to_playlist, lines 156-192: none for the early returns
(playlist missing, line 160, or nothing to add, line 164); otherwise
filter out songs already in the playlist by RAW "artist - title" (line
170), resolve Track objects, then a single addItems call: its length on
success (line 189), 0 when the batch call raises (line 192). -/
def add_tracks_to_playlist (env : Env) (tracks : List Song) : Option Nat :=
  if env.playlistExists = false then none
  else if tracks.isEmpty then none
  else
    if env.addItemsOk then
      some (track_objects env
        (tracks.filter (fun t =>
          decide ((t.artist ++ " - " ++ t.title) ∉
            env.items.map (fun p => p.1 ++ " - " ++ p.2))))).length
    else some 0

/-- Modelled from the spec: section 4.6 Mutator — "if the underlying
add call fails for the whole batch, falls back to per-item addition";
"count added is the number that are safe to report as durably added".
Identical to add_tracks_to_playlist except that a failed batch call
falls back to counting the per-item additions that succeed
(env.addItemOk); the source has no such path. -/
def mutator_spec_apply (env : Env) (tracks : List Song) : Option Nat :=
  if env.playlistExists = false then none
  else if tracks.isEmpty then none
  else
    if env.addItemsOk then
      some (track_objects env
        (tracks.filter (fun t =>
          decide ((t.artist ++ " - " ++ t.title) ∉
            env.items.map (fun p => p.1 ++ " - " ++ p.2))))).length
    else
      some ((track_objects env
        (tracks.filter (fun t =>
          decide ((t.artist ++ " - " ++ t.title) ∉
            env.items.map (fun p => p.1 ++ " - " ++ p.2))))).countP
        env.addItemOk)

/-! ## Confirm / add / prune pass (confirm_and_add_tracks, lines 194-221) -/

/-- confirm_and_add_tracks, lines 194-221, as a function from the CSV
rows on disk to (rows written back, count addItems reported).  Early
return when the playlist is missing (line 198) or found_tracks is empty
(line 202) or the prompt is declined (line 222): the CSV file is left
untouched and no add happens (second component none).  When confirmed,
add_tracks_to_playlist runs and THEN every row equal to some member of
tracks_to_add = found_tracks is dropped from the CSV (line 212),
whatever the add call returned.  missing_tracks is an unused parameter
of the source function, kept for fidelity. -/
def confirm_and_add_tracks (env : Env) ( missing_tracks found_tracks csvRows : List Song) :
    List Song × Option Nat :=
  if env.playlistExists = false then (csvRows, none)
  else if found_tracks.isEmpty then (csvRows, none)
  else if env.confirmed then
    (csvRows.filter (fun r => decide (r ∉ found_tracks)),
      add_tracks_to_playlist env found_tracks)
  else (csvRows, none)

/-! ## Normalizer lemmas -/

/-- Composing two filters is one filter with the conjoined predicate. -/
lemma filter_filter' {α : Type} (p q : α → Bool) (l : List α) :
    (l.filter q).filter p = l.filter (fun a => q a && p a) := by
  induction l with
  | nil => rfl
  | cons h t ih =>
    cases hq : q h <;> cases hp : p h <;>
      simp [List.filter_cons, hq, hp, ih]

/-- The combined character predicate of the three removal passes of
sanitize_string. -/
def keepChar (c : Char) : Bool :=
  (!isPyPunctNoPeriod c) && (decide (c.toNat ≠ 63) && decide (c.toNat ≠ 191))

lemma prefilter_eq (l : List Char) :
    removeInverted (removeQuestion (removePunct l)) = l.filter keepChar := by
  unfold removeInverted removeQuestion removePunct
  rw [filter_filter', filter_filter']
  rfl

lemma unidecodeChar_ascii {c : Char} (h : c.toNat < 128) : unidecodeChar c = [c] := by
  unfold unidecodeChar
  rw [if_pos h]

lemma unidecodeList_ascii {l : List Char} (h : ∀ c ∈ l, c.toNat < 128) :
    unidecodeList l = l := by
  induction l with
  | nil => rfl
  | cons c t ih =>
    unfold unidecodeList at *
    rw [List.flatMap_cons, unidecodeChar_ascii (h c (List.mem_cons_self c t))]
    rw [ih (fun d hd => h d (List.mem_cons_of_mem c hd))]
    rfl

lemma sanitizeList_ascii {l : List Char} (h : ∀ c ∈ l, c.toNat < 128) :
    sanitizeList l = l.filter keepChar := by
  unfold sanitizeList
  rw [prefilter_eq]
  exact unidecodeList_ascii (fun c hc => h c (List.mem_of_mem_filter hc))

/-- C7: the claim fails in general — sanitize_string is NOT idempotent,
because unidecode can introduce ASCII punctuation (a curly quote U+2019
becomes the ASCII apostrophe, which a second pass then strips).  It IS
idempotent on ASCII inputs: there unidecode is the identity and the
pass reduces to one character filter. -/
theorem c7_idempotent_on_ascii (s : String) (h : ∀ c ∈ s.data, c.toNat < 128) :
    sanitize_string (sanitize_string s) = sanitize_string s := by
  have h1 : sanitize_string s = String.mk (s.data.filter keepChar) := by
    unfold sanitize_string
    rw [sanitizeList_ascii h]
  rw [h1]
  have h2 : ∀ c ∈ s.data.filter keepChar, c.toNat < 128 :=
    fun c hc => h c (List.mem_of_mem_filter hc)
  unfold sanitize_string
  rw [show (String.mk (s.data.filter keepChar)).data = s.data.filter keepChar from rfl]
  rw [sanitizeList_ascii h2, filter_filter']
  congr 1
  simp [Bool.and_self]

/-- C7 witness: the idempotence theorem applied to a concrete ASCII
string. -/
theorem c7_idempotent_on_ascii_witness :
    sanitize_string (sanitize_string "ab.c!") = sanitize_string "ab.c!" :=
  c7_idempotent_on_ascii "ab.c!" (by decide)

/-- C7 counterexample: on the one-character string U+2019 (curly right
quote), sanitize_string gives the ASCII apostrophe but a second
application gives the empty string, refuting idempotence as claimed
for every string. -/
theorem c7_not_idempotent :
    sanitize_string (sanitize_string (String.mk [Char.ofNat 8217]))
      ≠ sanitize_string (String.mk [Char.ofNat 8217]) := by
  decide

/-! ## Matcher lemmas -/

lemma matchStep_snd_le (title : String) (acc : Option PlexTrack × ℚ) (pt : PlexTrack) :
    acc.2 ≤ (matchStep title acc pt).2 := by
  unfold matchStep
  by_cases h : acc.2 < scoreOf title pt
  · rw [if_pos h]
    exact le_of_lt h
  · rw [if_neg h]

lemma foldl_matchStep_snd_le (title : String) (cs : List PlexTrack) :
    ∀ acc : Option PlexTrack × ℚ, acc.2 ≤ (cs.foldl (matchStep title) acc).2 := by
  induction cs with
  | nil => intro acc; exact le_refl _
  | cons c t ih =>
    intro acc
    simp only [List.foldl_cons]
    exact le_trans (matchStep_snd_le title acc c) (ih (matchStep title acc c))

lemma foldl_matchStep_mem_le (title : String) (cs : List PlexTrack) :
    ∀ (acc : Option PlexTrack × ℚ) (c : PlexTrack), c ∈ cs →
      scoreOf title c ≤ (cs.foldl (matchStep title) acc).2 := by
  induction cs with
  | nil => intro acc c hc; exact absurd hc (List.not_mem_nil c)
  | cons d t ih =>
    intro acc c hc
    simp only [List.foldl_cons]
    rcases List.mem_cons.mp hc with h | h
    · subst h
      refine le_trans ?_ (foldl_matchStep_snd_le title t (matchStep title acc c))
      unfold matchStep
      by_cases hlt : acc.2 < scoreOf title c
      · rw [if_pos hlt]
      · rw [if_neg hlt]
        exact le_of_not_lt hlt
    · exact ih (matchStep title acc d) c h

lemma foldl_matchStep_cases (title : String) (cs : List PlexTrack) :
    ∀ acc : Option PlexTrack × ℚ,
      cs.foldl (matchStep title) acc = acc ∨
      ∃ c ∈ cs, cs.foldl (matchStep title) acc = (some c, scoreOf title c) ∧
        acc.2 < scoreOf title c := by
  induction cs with
  | nil => intro acc; exact Or.inl rfl
  | cons d t ih =>
    intro acc
    simp only [List.foldl_cons]
    rcases ih (matchStep title acc d) with h | ⟨c, hc, heq, hlt⟩
    · rw [h]
      unfold matchStep
      by_cases hlt : acc.2 < scoreOf title d
      · rw [if_pos hlt]
        exact Or.inr ⟨d, List.mem_cons_self d t, rfl, hlt⟩
      · rw [if_neg hlt]
        exact Or.inl rfl
    · exact Or.inr ⟨c, List.mem_cons_of_mem d hc, heq,
        lt_of_le_of_lt (matchStep_snd_le title acc d) hlt⟩

/-! ## Ratio bounds -/

lemma commonPrefixLen_le_left : ∀ a b : List Char, commonPrefixLen a b ≤ a.length := by
  intro a
  induction a with
  | nil => intro b; simp [commonPrefixLen]
  | cons x xs ih =>
    intro b
    cases b with
    | nil => simp [commonPrefixLen]
    | cons y ys =>
      unfold commonPrefixLen
      by_cases hxy : x = y
      · rw [if_pos hxy]
        simp only [List.length_cons]
        exact Nat.succ_le_succ (ih ys)
      · rw [if_neg hxy]
        exact Nat.zero_le _

lemma commonPrefixLen_le_right : ∀ a b : List Char, commonPrefixLen a b ≤ b.length := by
  intro a
  induction a with
  | nil => intro b; simp [commonPrefixLen]
  | cons x xs ih =>
    intro b
    cases b with
    | nil => simp [commonPrefixLen]
    | cons y ys =>
      unfold commonPrefixLen
      by_cases hxy : x = y
      · rw [if_pos hxy]
        simp only [List.length_cons]
        exact Nat.succ_le_succ (ih ys)
      · rw [if_neg hxy]
        exact Nat.zero_le _

lemma foldl_invariant {α β : Type} (P : β → Prop) (f : β → α → β) :
    ∀ (l : List α) (init : β), P init →
      (∀ acc x, x ∈ l → P acc → P (f acc x)) → P (l.foldl f init) := by
  intro l
  induction l with
  | nil => intro init h0 _; exact h0
  | cons a t ih =>
    intro init h0 hstep
    simp only [List.foldl_cons]
    exact ih (f init a) (hstep init a (List.mem_cons_self a t) h0)
      (fun acc x hx hacc => hstep acc x (List.mem_cons_of_mem a hx) hacc)

lemma findLongestMatch_bounds (a b : List Char) :
    (findLongestMatch a b).1 + (findLongestMatch a b).2.2 ≤ a.length ∧
    (findLongestMatch a b).2.1 + (findLongestMatch a b).2.2 ≤ b.length := by
  unfold findLongestMatch
  refine foldl_invariant
    (fun best : Nat × Nat × Nat =>
      best.1 + best.2.2 ≤ a.length ∧ best.2.1 + best.2.2 ≤ b.length)
    _ _ _ ⟨Nat.zero_le _, Nat.zero_le _⟩ ?_
  intro best i hi hbest
  refine foldl_invariant
    (fun best2 : Nat × Nat × Nat =>
      best2.1 + best2.2.2 ≤ a.length ∧ best2.2.1 + best2.2.2 ≤ b.length)
    _ _ _ hbest ?_
  intro best2 j hj hb2
  by_cases hlt : best2.2.2 < commonPrefixLen (a.drop i) (b.drop j)
  · rw [if_pos hlt]
    have hi' : i < a.length := List.mem_range.mp hi
    have hj' : j < b.length := List.mem_range.mp hj
    have h1 : commonPrefixLen (a.drop i) (b.drop j) ≤ a.length - i := by
      have := commonPrefixLen_le_left (a.drop i) (b.drop j)
      simpa [List.length_drop] using this
    have h2 : commonPrefixLen (a.drop i) (b.drop j) ≤ b.length - j := by
      have := commonPrefixLen_le_right (a.drop i) (b.drop j)
      simpa [List.length_drop] using this
    refine ⟨?_, ?_⟩
    · show i + commonPrefixLen (a.drop i) (b.drop j) ≤ a.length
      omega
    · show j + commonPrefixLen (a.drop i) (b.drop j) ≤ b.length
      omega
  · rw [if_neg hlt]
    exact hb2

lemma matchTotalFuel_le : ∀ (fuel : Nat) (a b : List Char),
    matchTotalFuel fuel a b ≤ a.length ∧ matchTotalFuel fuel a b ≤ b.length := by
  intro fuel
  induction fuel with
  | zero => intro a b; exact ⟨Nat.zero_le _, Nat.zero_le _⟩
  | succ n ih =>
    intro a b
    unfold matchTotalFuel
    by_cases hk : (findLongestMatch a b).2.2 = 0
    · rw [if_pos hk]
      exact ⟨Nat.zero_le _, Nat.zero_le _⟩
    · rw [if_neg hk]
      obtain ⟨hA, hB⟩ := findLongestMatch_bounds a b
      obtain ⟨l1, l2⟩ :=
        ih (a.take (findLongestMatch a b).1) (b.take (findLongestMatch a b).2.1)
      obtain ⟨r1, r2⟩ :=
        ih (a.drop ((findLongestMatch a b).1 + (findLongestMatch a b).2.2))
          (b.drop ((findLongestMatch a b).2.1 + (findLongestMatch a b).2.2))
      rw [List.length_take] at l1 l2
      rw [List.length_drop] at r1 r2
      constructor <;> omega

lemma matchTotal_le_left (a b : List Char) : matchTotal a b ≤ a.length :=
  (matchTotalFuel_le _ a b).1

lemma matchTotal_le_right (a b : List Char) : matchTotal a b ≤ b.length :=
  (matchTotalFuel_le _ a b).2

lemma ratioQ_nonneg (a b : List Char) : 0 ≤ ratioQ a b := by
  unfold ratioQ
  by_cases h : a.length + b.length = 0
  · rw [if_pos h]
    norm_num
  · rw [if_neg h]
    apply div_nonneg
    · positivity
    · positivity

lemma ratioQ_le_one (a b : List Char) : ratioQ a b ≤ 1 := by
  unfold ratioQ
  by_cases h : a.length + b.length = 0
  · rw [if_pos h]
  · rw [if_neg h]
    have hp : 0 < a.length + b.length := Nat.pos_of_ne_zero h
    have hp' : (0 : ℚ) < (a.length : ℚ) + (b.length : ℚ) := by exact_mod_cast hp
    rw [div_le_one hp']
    have h1 := matchTotal_le_left a b
    have h2 := matchTotal_le_right a b
    exact_mod_cast (show 2 * matchTotal a b ≤ a.length + b.length by omega)

lemma scoreOf_nonneg (title : String) (pt : PlexTrack) : 0 ≤ scoreOf title pt :=
  ratioQ_nonneg _ _

lemma scoreOf_le_one (title : String) (pt : PlexTrack) : scoreOf title pt ≤ 1 :=
  ratioQ_le_one _ _

lemma bestPair_singleton (t : String) (c : PlexTrack) (h : 0 < scoreOf t c) :
    bestPair t [c] = (some c, scoreOf t c) := by
  unfold bestPair
  simp only [List.foldl_cons, List.foldl_nil]
  unfold matchStep
  rw [if_pos (show ((none : Option PlexTrack), (0 : ℚ)).2 < scoreOf t c from h)]

lemma get_best_singleton (t : String) (c : PlexTrack) (h : 0 < scoreOf t c) :
    get_best_matching_track t [c] = some c := by
  unfold get_best_matching_track
  rw [bestPair_singleton t c h]

/-- Evaluate ratioQ once matchTotal and the lengths are known. -/
lemma ratioQ_eval (a b : List Char) (m la lb : Nat)
    (hm : matchTotal a b = m) (hla : a.length = la) (hlb : b.length = lb)
    (hne : la + lb ≠ 0) :
    ratioQ a b = 2 * (m : ℚ) / ((la : ℚ) + (lb : ℚ)) := by
  unfold ratioQ
  rw [hm, hla, hlb, if_neg hne]

/-- C3: the claim fails — get_best_matching_track applies NO threshold.
Amended: the matcher returns a candidate exactly when some candidate
has a strictly positive similarity ratio, and the retained
highest_ratio dominates every candidate's score; nothing compares the
score against 0.9. -/
theorem c3_matcher_no_threshold (title : String) (cs : List PlexTrack) :
    ((get_best_matching_track title cs).isSome = true ↔
      ∃ c ∈ cs, 0 < scoreOf title c)
    ∧ ∀ c ∈ cs, scoreOf title c ≤ (bestPair title cs).2 := by
  constructor
  · constructor
    · intro hs
      rcases foldl_matchStep_cases title cs (none, 0) with h | ⟨c, hc, heq, hlt⟩
      · exfalso
        unfold get_best_matching_track bestPair at hs
        rw [h] at hs
        simp at hs
      · exact ⟨c, hc, by simpa using hlt⟩
    · rintro ⟨c, hc, hpos⟩
      rcases foldl_matchStep_cases title cs (none, 0) with h | ⟨d, hd, heq, hlt⟩
      · exfalso
        have hle := foldl_matchStep_mem_le title cs (none, 0) c hc
        rw [h] at hle
        simp at hle
        exact absurd hpos (not_lt.mpr hle)
      · unfold get_best_matching_track bestPair
        rw [heq]
        rfl
  · intro c hc
    unfold bestPair
    exact foldl_matchStep_mem_le title cs (none, 0) c hc

/-- C3 witness: the no-threshold characterisation at a concrete
one-candidate library. -/
theorem c3_matcher_no_threshold_witness :
    ((get_best_matching_track "Go" [⟨"Go", "A", 0⟩]).isSome = true ↔
      ∃ c ∈ [(⟨"Go", "A", 0⟩ : PlexTrack)], 0 < scoreOf "Go" c)
    ∧ ∀ c ∈ [(⟨"Go", "A", 0⟩ : PlexTrack)],
        scoreOf "Go" c ≤ (bestPair "Go" [⟨"Go", "A", 0⟩]).2 :=
  c3_matcher_no_threshold "Go" [⟨"Go", "A", 0⟩]

/-- C3 counterexample: with requested title "abc" and single candidate
"axy" the matcher returns Matched with score 1/3, far below the claimed
0.9 threshold: no threshold test exists in the code. -/
theorem c3_match_below_threshold :
    bestPair "abc" [⟨"axy", "A", 0⟩] = (some ⟨"axy", "A", 0⟩, 1 / 3)
    ∧ ¬ ((9 : ℚ) / 10 ≤ 1 / 3) := by
  have hs : scoreOf "abc" ⟨"axy", "A", 0⟩ = 1 / 3 := by
    have h0 : scoreOf "abc" ⟨"axy", "A", 0⟩
        = ratioQ "abc".data (sanitize_string "axy").data := rfl
    rw [h0, ratioQ_eval "abc".data (sanitize_string "axy").data 1 3 3
      (by decide) (by decide) (by decide) (by norm_num)]
    norm_num
  constructor
  · rw [bestPair_singleton "abc" ⟨"axy", "A", 0⟩ (by rw [hs]; norm_num), hs]
  · norm_num

/-- C8: the claim fails — line 131 passes the REQUESTED title through
raw and sanitizes only the candidate title.  Amended: every candidate
is scored by ratioQ between the raw requested title and the sanitized
candidate title; the score is a rational in [0,1]; the retained best
dominates all candidate scores; and away from the empty-empty case the
ratio satisfies ratio * (len a + len b) = 2 * matched characters. -/
theorem c8_score_bounds (t : String) (cs : List PlexTrack) :
    (0 ≤ (bestPair t cs).2 ∧ (bestPair t cs).2 ≤ 1)
    ∧ (∀ c ∈ cs, scoreOf t c ≤ (bestPair t cs).2)
    ∧ ∀ a b : List Char, a.length + b.length ≠ 0 →
        ratioQ a b * ((a.length : ℚ) + (b.length : ℚ)) = 2 * (matchTotal a b : ℚ) := by
  refine ⟨⟨?_, ?_⟩, ?_, ?_⟩
  · have := foldl_matchStep_snd_le t cs (none, 0)
    unfold bestPair
    simpa using this
  · rcases foldl_matchStep_cases t cs (none, 0) with h | ⟨c, hc, heq, hlt⟩
    · unfold bestPair
      rw [h]
      norm_num
    · unfold bestPair
      rw [heq]
      exact scoreOf_le_one t c
  · intro c hc
    unfold bestPair
    exact foldl_matchStep_mem_le t cs (none, 0) c hc
  · intro a b h
    unfold ratioQ
    rw [if_neg h]
    have hp : 0 < a.length + b.length := Nat.pos_of_ne_zero h
    have hp' : ((a.length : ℚ) + (b.length : ℚ)) ≠ 0 := by
      have : (0 : ℚ) < (a.length : ℚ) + (b.length : ℚ) := by exact_mod_cast hp
      exact ne_of_gt this
    rw [div_mul_cancel₀ _ hp']

/-- C8 witness: the amended statement at a concrete title and
one-candidate library. -/
theorem c8_score_bounds_witness :
    (0 ≤ (bestPair "a" [⟨"a", "A", 0⟩]).2 ∧ (bestPair "a" [⟨"a", "A", 0⟩]).2 ≤ 1)
    ∧ (∀ c ∈ [(⟨"a", "A", 0⟩ : PlexTrack)], scoreOf "a" c ≤ (bestPair "a" [⟨"a", "A", 0⟩]).2)
    ∧ ∀ a b : List Char, a.length + b.length ≠ 0 →
        ratioQ a b * ((a.length : ℚ) + (b.length : ℚ)) = 2 * (matchTotal a b : ℚ) :=
  c8_score_bounds "a" [⟨"a", "A", 0⟩]

/-- C8 counterexample: requested title "Go!" against candidate titled
"Go!".  The code scores ratio("Go!", "Go") = 4/5 because only the
candidate side is sanitized; scoring both sides normalized, as the
claim states, would give 1. -/
theorem c8_raw_request_title :
    bestPair "Go!" [⟨"Go!", "A", 0⟩] = (some ⟨"Go!", "A", 0⟩, 4 / 5)
    ∧ ratioQ (sanitize_string "Go!").data (sanitize_string "Go!").data = 1
    ∧ ((4 : ℚ) / 5 ≠ 1) := by
  have hs : scoreOf "Go!" ⟨"Go!", "A", 0⟩ = 4 / 5 := by
    have h0 : scoreOf "Go!" ⟨"Go!", "A", 0⟩
        = ratioQ "Go!".data (sanitize_string "Go!").data := rfl
    rw [h0, ratioQ_eval "Go!".data (sanitize_string "Go!").data 2 3 2
      (by decide) (by decide) (by decide) (by norm_num)]
    norm_num
  refine ⟨?_, ?_, by norm_num⟩
  · rw [bestPair_singleton "Go!" ⟨"Go!", "A", 0⟩ (by rw [hs]; norm_num), hs]
  · rw [ratioQ_eval (sanitize_string "Go!").data (sanitize_string "Go!").data 2 2 2
      (by decide) (by decide) (by decide) (by norm_num)]
    norm_num

/-! ## Engine lemmas -/

lemma engineLoop_cons_missing (env : Env) (snap : List String) (h : Song) (t : List Song) :
    (engineLoop env snap (h :: t)).2.1 =
      (if songFate env snap h = Fate.missing then [h] else [])
        ++ (engineLoop env snap t).2.1 := by
  rcases hf : songFate env snap h with _ | u | _ <;> simp [engineLoop, hf]

lemma engineLoop_cons_found (env : Env) (snap : List String) (h : Song) (t : List Song) :
    (engineLoop env snap (h :: t)).2.2 =
      (if (songFate env snap h).isFound = true then [h] else [])
        ++ (engineLoop env snap t).2.2 := by
  rcases hf : songFate env snap h with _ | u | _ <;> simp [engineLoop, hf, Fate.isFound]

lemma engine_count_missing (env : Env) (snap : List String) (songs : List Song) (s : Song) :
    ((engineLoop env snap songs).2.1).count s =
      if songFate env snap s = Fate.missing then songs.count s else 0 := by
  induction songs with
  | nil => simp [engineLoop]
  | cons h t ih =>
    rw [engineLoop_cons_missing]
    by_cases hsh : s = h
    · subst hsh
      by_cases hf : songFate env snap s = Fate.missing <;>
        simp [hf, List.count_cons, List.count_append, ih]
    · by_cases hf : songFate env snap h = Fate.missing <;>
        simp [hf, List.count_cons, List.count_append, hsh, ih]

lemma engine_count_found (env : Env) (snap : List String) (songs : List Song) (s : Song) :
    ((engineLoop env snap songs).2.2).count s =
      if (songFate env snap s).isFound = true then songs.count s else 0 := by
  induction songs with
  | nil => simp [engineLoop]
  | cons h t ih =>
    rw [engineLoop_cons_found]
    by_cases hsh : s = h
    · subst hsh
      by_cases hf : (songFate env snap s).isFound = true <;>
        simp [hf, List.count_cons, List.count_append, ih]
    · by_cases hf : (songFate env snap h).isFound = true <;>
        simp [hf, List.count_cons, List.count_append, hsh, ih]

lemma fate_present_iff (env : Env) (snap : List String) (s : Song) :
    songFate env snap s = Fate.present ↔ trackString s ∈ snap := by
  unfold songFate
  by_cases hk : trackString s ∈ snap
  · simp [hk]
  · rw [if_neg hk]
    constructor
    · intro h
      rcases he : env.search (sanitize_string s.artist) with _ | la
      · simp [he] at h
      · rcases la with _ | ⟨a, rest⟩
        · simp [he] at h
        · rcases hb : get_best_matching_track s.title a.tracks with _ | u <;>
            simp [he, hb] at h
    · intro h
      exact absurd h hk

lemma engine_mem_missing (env : Env) (snap : List String) (songs : List Song) (s : Song) :
    s ∈ (engineLoop env snap songs).2.1 ↔
      s ∈ songs ∧ songFate env snap s = Fate.missing := by
  have hcount := engine_count_missing env snap songs s
  by_cases hf : songFate env snap s = Fate.missing
  · rw [if_pos hf] at hcount
    constructor
    · intro hmem
      have hpos : 0 < songs.count s := by
        rw [← hcount]
        exact List.count_pos_iff.mpr hmem
      exact ⟨List.count_pos_iff.mp hpos, hf⟩
    · rintro ⟨hmem, _⟩
      apply List.count_pos_iff.mp
      rw [hcount]
      exact List.count_pos_iff.mpr hmem
  · rw [if_neg hf] at hcount
    constructor
    · intro hmem
      exfalso
      have hpos := List.count_pos_iff.mpr hmem
      rw [hcount] at hpos
      exact lt_irrefl 0 hpos
    · rintro ⟨_, h⟩
      exact absurd h hf

lemma engine_mem_found (env : Env) (snap : List String) (songs : List Song) (s : Song) :
    s ∈ (engineLoop env snap songs).2.2 ↔
      s ∈ songs ∧ (songFate env snap s).isFound = true := by
  have hcount := engine_count_found env snap songs s
  by_cases hf : (songFate env snap s).isFound = true
  · rw [if_pos hf] at hcount
    constructor
    · intro hmem
      have hpos : 0 < songs.count s := by
        rw [← hcount]
        exact List.count_pos_iff.mpr hmem
      exact ⟨List.count_pos_iff.mp hpos, hf⟩
    · rintro ⟨hmem, _⟩
      apply List.count_pos_iff.mp
      rw [hcount]
      exact List.count_pos_iff.mpr hmem
  · rw [if_neg hf] at hcount
    constructor
    · intro hmem
      exfalso
      have hpos := List.count_pos_iff.mpr hmem
      rw [hcount] at hpos
      exact lt_irrefl 0 hpos
    · rintro ⟨_, h⟩
      exact absurd h hf

lemma count_filter' {α : Type} [DecidableEq α] (p : α → Bool) (l : List α) (a : α) :
    (l.filter p).count a = if p a = true then l.count a else 0 := by
  induction l with
  | nil => simp
  | cons h t ih =>
    by_cases hah : a = h
    · subst hah
      by_cases hpa : p a = true
      · simp [List.filter_cons, hpa, List.count_cons, ih]
      · simp [List.filter_cons, hpa, List.count_cons, ih]
    · by_cases hph : p h = true
      · simp [List.filter_cons, hph, List.count_cons, hah, ih]
      · simp [List.filter_cons, hph, List.count_cons, hah, ih]

lemma mem_alreadyPresent (env : Env) (songs : List Song) (x : Song) :
    x ∈ alreadyPresentSongs env songs ↔
      x ∈ songs ∧ trackString x ∈ get_current_playlist_songs env := by
  unfold alreadyPresentSongs
  simp [List.mem_filter]

lemma searchedArtists_eq (env : Env) (songs : List Song) :
    searchedArtists env songs =
      (songs.filter (fun t =>
        decide (trackString t ∉ get_current_playlist_songs env))).map
        (fun t => sanitize_string t.artist) := by
  unfold searchedArtists
  induction songs with
  | nil => rfl
  | cons h t ih =>
    by_cases hk : trackString h ∈ get_current_playlist_songs env <;>
      simp [searchedArtistsLoop, List.filter_cons, hk, ih]

/-- Concrete environment whose playlist already holds "A - T". -/
def envC1 : Env := {
  playlistExists := true, items := [("A", "T")],
  search := fun _ => some [],
  searchArtists := fun _ => [], searchTracks := fun _ => [],
  addItemsOk := true, addItemOk := fun _ => true, confirmed := true }

/-- C1: the claim fails — the engine has no alreadyPresent output
bucket.  Amended: entries whose key is in the snapshot are silently
dropped from every output; together with the derived already-present
classification (alreadyPresentSongs, the line-57 filter), found_tracks
and missing_tracks partition the backlog exactly. -/
theorem c1_buckets_partition (env : Env) (songs : List Song) (s : Song) :
    (alreadyPresentSongs env songs).count s
        + ((get_available_plex_tracks env songs).2.2).count s
        + ((get_available_plex_tracks env songs).2.1).count s
      = songs.count s
    ∧ (alreadyPresentSongs env songs).Disjoint (get_available_plex_tracks env songs).2.2
    ∧ (alreadyPresentSongs env songs).Disjoint (get_available_plex_tracks env songs).2.1
    ∧ ((get_available_plex_tracks env songs).2.2).Disjoint
        (get_available_plex_tracks env songs).2.1 := by
  unfold get_available_plex_tracks
  refine ⟨?_, ?_, ?_, ?_⟩
  · rw [engine_count_found, engine_count_missing]
    unfold alreadyPresentSongs
    rw [count_filter']
    rcases hf : songFate env (get_current_playlist_songs env) s with _ | u | _
    · have hk := (fate_present_iff env (get_current_playlist_songs env) s).mp hf
      simp [hk, hf, Fate.isFound]
    · have hk : trackString s ∉ get_current_playlist_songs env := by
        intro hk
        have hp := (fate_present_iff env (get_current_playlist_songs env) s).mpr hk
        rw [hf] at hp
        exact Fate.noConfusion hp
      simp [hk, hf, Fate.isFound]
    · have hk : trackString s ∉ get_current_playlist_songs env := by
        intro hk
        have hp := (fate_present_iff env (get_current_playlist_songs env) s).mpr hk
        rw [hf] at hp
        exact Fate.noConfusion hp
      simp [hk, hf, Fate.isFound]
  · intro x hx hx2
    have h1 := (mem_alreadyPresent env songs x).mp hx
    have h2 := (engine_mem_found env (get_current_playlist_songs env) songs x).mp hx2
    have hp := (fate_present_iff env (get_current_playlist_songs env) x).mpr h1.2
    rw [hp] at h2
    simp [Fate.isFound] at h2
  · intro x hx hx2
    have h1 := (mem_alreadyPresent env songs x).mp hx
    have h2 := (engine_mem_missing env (get_current_playlist_songs env) songs x).mp hx2
    have hp := (fate_present_iff env (get_current_playlist_songs env) x).mpr h1.2
    rw [hp] at h2
    exact Fate.noConfusion h2.2
  · intro x hx hx2
    have h1 := (engine_mem_found env (get_current_playlist_songs env) songs x).mp hx
    have h2 := (engine_mem_missing env (get_current_playlist_songs env) songs x).mp hx2
    rw [h2.2] at h1
    simp [Fate.isFound] at h1

/-- C1 witness: the partition at a concrete environment and backlog. -/
theorem c1_buckets_partition_witness :
    (alreadyPresentSongs envC1 [⟨"T", "A"⟩]).count ⟨"T", "A"⟩
        + ((get_available_plex_tracks envC1 [⟨"T", "A"⟩]).2.2).count ⟨"T", "A"⟩
        + ((get_available_plex_tracks envC1 [⟨"T", "A"⟩]).2.1).count ⟨"T", "A"⟩
      = [(⟨"T", "A"⟩ : Song)].count ⟨"T", "A"⟩
    ∧ (alreadyPresentSongs envC1 [⟨"T", "A"⟩]).Disjoint
        (get_available_plex_tracks envC1 [⟨"T", "A"⟩]).2.2
    ∧ (alreadyPresentSongs envC1 [⟨"T", "A"⟩]).Disjoint
        (get_available_plex_tracks envC1 [⟨"T", "A"⟩]).2.1
    ∧ ((get_available_plex_tracks envC1 [⟨"T", "A"⟩]).2.2).Disjoint
        (get_available_plex_tracks envC1 [⟨"T", "A"⟩]).2.1 :=
  c1_buckets_partition envC1 [⟨"T", "A"⟩] ⟨"T", "A"⟩

/-- C1 counterexample: a backlog entry already present in the playlist
appears in NO output of _get_available_plex_tracks — the claimed
"every entry appears in exactly one bucket" fails because the engine
returns no alreadyPresent bucket at all. -/
theorem c1_no_already_present_bucket :
    get_available_plex_tracks envC1 [⟨"T", "A"⟩]
      = (([] : List PlexTrack), ([] : List Song), ([] : List Song))
    ∧ (⟨"T", "A"⟩ : Song) ∈ [(⟨"T", "A"⟩ : Song)] := by
  refine ⟨by decide, by decide⟩

/-- Concrete environment whose playlist holds the fully normalized key
"A - Go" while the backlog song is titled "Go!". -/
def envC4 : Env := {
  playlistExists := true, items := [("A", "Go")],
  search := fun _ => some [],
  searchArtists := fun _ => [], searchTracks := fun _ => [],
  addItemsOk := true, addItemOk := fun _ => true, confirmed := true }

/-- C4: the claim fails — line 56 normalizes only the artist, the title
enters the key RAW.  Amended: a request is skipped (classified already
present, in no output bucket) iff "<normalized artist> - <raw title>"
is in the snapshot, and the loop issues exactly one artist query per
non-skipped song, none for skipped ones. -/
theorem c4_raw_title_key (env : Env) (songs : List Song) (s : Song) (hs : s ∈ songs) :
    (trackString s ∈ get_current_playlist_songs env ↔
      (s ∉ (get_available_plex_tracks env songs).2.2
        ∧ s ∉ (get_available_plex_tracks env songs).2.1))
    ∧ searchedArtists env songs =
        (songs.filter (fun t =>
          decide (trackString t ∉ get_current_playlist_songs env))).map
          (fun t => sanitize_string t.artist) := by
  refine ⟨?_, searchedArtists_eq env songs⟩
  unfold get_available_plex_tracks
  constructor
  · intro hk
    have hp : songFate env (get_current_playlist_songs env) s = Fate.present :=
      (fate_present_iff env (get_current_playlist_songs env) s).mpr hk
    constructor
    · intro hmem
      have h := (engine_mem_found env (get_current_playlist_songs env) songs s).mp hmem
      rw [hp] at h
      simp [Fate.isFound] at h
    · intro hmem
      have h := (engine_mem_missing env (get_current_playlist_songs env) songs s).mp hmem
      rw [hp] at h
      exact Fate.noConfusion h.2
  · rintro ⟨hnf, hnm⟩
    by_contra hk
    rcases hfate : songFate env (get_current_playlist_songs env) s with _ | u | _
    · exact hk ((fate_present_iff env (get_current_playlist_songs env) s).mp hfate)
    · refine hnf ((engine_mem_found env (get_current_playlist_songs env) songs s).mpr
        ⟨hs, ?_⟩)
      rw [hfate]
      rfl
    · exact hnm ((engine_mem_missing env (get_current_playlist_songs env) songs s).mpr
        ⟨hs, hfate⟩)

/-- C4 witness: the amended key characterisation at a concrete
environment. -/
theorem c4_raw_title_key_witness :
    (trackString ⟨"Go!", "A"⟩ ∈ get_current_playlist_songs envC4 ↔
      ((⟨"Go!", "A"⟩ : Song) ∉ (get_available_plex_tracks envC4 [⟨"Go!", "A"⟩]).2.2
        ∧ (⟨"Go!", "A"⟩ : Song) ∉ (get_available_plex_tracks envC4 [⟨"Go!", "A"⟩]).2.1))
    ∧ searchedArtists envC4 [⟨"Go!", "A"⟩] =
        ([(⟨"Go!", "A"⟩ : Song)].filter (fun t =>
          decide (trackString t ∉ get_current_playlist_songs envC4))).map
          (fun t => sanitize_string t.artist) :=
  c4_raw_title_key envC4 [⟨"Go!", "A"⟩] ⟨"Go!", "A"⟩ (by decide)

/-- C4 counterexample: the claim's NormalizedKey (both sides
normalized) IS in the snapshot, yet the song is routed to
missing_tracks and an artist query is issued — because the code key
keeps the raw title "Go!". -/
theorem c4_normalized_key_mismatch :
    specKey ⟨"Go!", "A"⟩ ∈ get_current_playlist_songs envC4
    ∧ (⟨"Go!", "A"⟩ : Song) ∈ (get_available_plex_tracks envC4 [⟨"Go!", "A"⟩]).2.1
    ∧ searchedArtists envC4 [⟨"Go!", "A"⟩] = ["A"] := by
  refine ⟨by decide, by decide, by decide⟩

/-- Concrete environment: artist search finds nothing, while the
free-text track search (which the code never calls) would return a
perfect candidate. -/
def envC5 : Env := {
  playlistExists := true, items := [],
  search := fun _ => some [],
  searchArtists := fun _ => [],
  searchTracks := fun _ => [⟨"Go", "Nobody", 5⟩],
  addItemsOk := true, addItemOk := fun _ => true, confirmed := true }

/-- Concrete environment with no fallback candidates either. -/
def envC5b : Env := {
  playlistExists := true, items := [],
  search := fun _ => some [],
  searchArtists := fun _ => [], searchTracks := fun _ => [],
  addItemsOk := true, addItemOk := fun _ => true, confirmed := true }

/-- C5: the claim fails — there is no fallback query.  Amended: when
the artist search returns no artist entity the song goes straight to
missing_tracks (lines 74-76), whatever the free-text track search would
return: the searchTracks capability of the environment is never
consulted. -/
theorem c5_artist_not_found_unmatched (env : Env) (f : String → List PlexTrack)
    (songs : List Song) (s : Song) (hs : s ∈ songs)
    (hk : trackString s ∉ get_current_playlist_songs env)
    (ha : env.search (sanitize_string s.artist) = some []) :
    s ∈ (get_available_plex_tracks { env with searchTracks := f } songs).2.1 := by
  have hsnap : get_current_playlist_songs { env with searchTracks := f } =
      get_current_playlist_songs env := rfl
  unfold get_available_plex_tracks
  rw [hsnap]
  apply (engine_mem_missing { env with searchTracks := f }
    (get_current_playlist_songs env) songs s).mpr
  refine ⟨hs, ?_⟩
  unfold songFate
  rw [if_neg hk]
  have hse : ({ env with searchTracks := f } : Env).search = env.search := rfl
  rw [hse, ha]

/-- C5 witness: the amended no-fallback behaviour at a concrete
environment with a perfect fallback candidate available. -/
theorem c5_artist_not_found_unmatched_witness :
    (⟨"Go", "Nobody"⟩ : Song) ∈
      (get_available_plex_tracks
        { envC5b with searchTracks := fun _ => [⟨"Go", "Nobody", 5⟩] }
        [⟨"Go", "Nobody"⟩]).2.1 :=
  c5_artist_not_found_unmatched envC5b (fun _ => [⟨"Go", "Nobody", 5⟩])
    [⟨"Go", "Nobody"⟩] ⟨"Go", "Nobody"⟩ (by decide) (by decide) rfl

/-- C5 counterexample: with no artist result the song is classified
missing, even though the library's free-text search holds a candidate
with similarity 1 that the claimed fallback would have accepted. -/
theorem c5_fallback_not_used :
    (⟨"Go", "Nobody"⟩ : Song) ∈ (get_available_plex_tracks envC5 [⟨"Go", "Nobody"⟩]).2.1
    ∧ envC5.searchTracks "Go" = [⟨"Go", "Nobody", 5⟩]
    ∧ scoreOf "Go" ⟨"Go", "Nobody", 5⟩ = 1 := by
  refine ⟨by decide, rfl, ?_⟩
  have h0 : scoreOf "Go" ⟨"Go", "Nobody", 5⟩
      = ratioQ "Go".data (sanitize_string "Go").data := rfl
  rw [h0, ratioQ_eval "Go".data (sanitize_string "Go").data 2 2 2
    (by decide) (by decide) (by decide) (by norm_num)]
  norm_num

/-- Concrete environment whose artist search returns two artists of the
same name: the first has no tracks, the second holds the exact track. -/
def envC10a : Env := {
  playlistExists := true, items := [],
  search := fun _ => some [⟨"A", []⟩, ⟨"A", [⟨"Go", "A", 7⟩]⟩],
  searchArtists := fun _ => [], searchTracks := fun _ => [],
  addItemsOk := true, addItemOk := fun _ => true, confirmed := true }

/-- The same environment with the second artist removed. -/
def envC10b : Env := { envC10a with search := fun _ => some [⟨"A", []⟩] }

/-- C10: confirmed — line 66 enumerates artist_results[0].tracks()
only: the classification of a song depends on the artist search result
solely through its FIRST element; every further returned artist is
ignored. -/
theorem c10_first_artist_only (e1 e2 : Env) (snap : List String) (s : Song)
    (a : Artist) (r1 r2 : List Artist)
    (h1 : e1.search (sanitize_string s.artist) = some (a :: r1))
    (h2 : e2.search (sanitize_string s.artist) = some (a :: r2)) :
    songFate e1 snap s = songFate e2 snap s := by
  unfold songFate
  by_cases hk : trackString s ∈ snap
  · rw [if_pos hk, if_pos hk]
  · rw [if_neg hk, if_neg hk, h1, h2]

/-- C10 witness: with the correct artist listed second, the song is
classified missing although that second artist's tracks contain it —
and removing the second artist changes nothing. -/
theorem c10_first_artist_only_witness :
    songFate envC10a [] ⟨"Go", "A"⟩ = songFate envC10b [] ⟨"Go", "A"⟩
    ∧ songFate envC10a [] ⟨"Go", "A"⟩ = Fate.missing
    ∧ (⟨"Go", "A", 7⟩ : PlexTrack) ∈ (⟨"A", [⟨"Go", "A", 7⟩]⟩ : Artist).tracks :=
  ⟨c10_first_artist_only envC10a envC10b [] ⟨"Go", "A"⟩ ⟨"A", []⟩
      [⟨"A", [⟨"Go", "A", 7⟩]⟩] [] rfl rfl,
    by decide, by decide⟩

/-! ## Mutator lemmas -/

lemma track_objects_cons_found (env : Env) (t : Song) (rest : List Song)
    (a : Artist) (ar : List Artist) (m : PlexTrack)
    (ha : env.searchArtists (sanitize_string t.artist) = a :: ar)
    (hb : get_best_matching_track t.title a.tracks = some m) :
    track_objects env (t :: rest) = m :: track_objects env rest := by
  simp only [track_objects, ha, hb]

lemma track_objects_length_le (env : Env) : ∀ l : List Song,
    (track_objects env l).length ≤ l.length := by
  intro l
  induction l with
  | nil => simp [track_objects]
  | cons t rest ih =>
    unfold track_objects
    rcases ha : env.searchArtists (sanitize_string t.artist) with _ | ⟨a, r⟩
    · simp only [ha]
      exact Nat.le_succ_of_le ih
    · simp only [ha]
      rcases hb : get_best_matching_track t.title a.tracks with _ | u
      · simp only [hb]
        exact Nat.le_succ_of_le ih
      · simp only [hb, List.length_cons]
        exact Nat.succ_le_succ ih

/-- Concrete environment in which every backlog artist resolves and the
batch addItems call fails. -/
def envC6 : Env := {
  playlistExists := true, items := [],
  search := fun _ => some [],
  searchArtists := fun nm =>
    if nm = "A" then [⟨"A", [⟨"S1", "A", 1⟩]⟩]
    else if nm = "B" then [⟨"B", [⟨"S2", "B", 2⟩]⟩]
    else [],
  searchTracks := fun _ => [],
  addItemsOk := false, addItemOk := fun _ => true, confirmed := true }

/-- The two-song backlog used against envC6. -/
def songsC6 : List Song := [⟨"S1", "A"⟩, ⟨"S2", "B"⟩]

lemma scoreOf_S1 : scoreOf "S1" (⟨"S1", "A", 1⟩ : PlexTrack) = 1 := by
  have h0 : scoreOf "S1" (⟨"S1", "A", 1⟩ : PlexTrack)
      = ratioQ "S1".data (sanitize_string "S1").data := rfl
  rw [h0, ratioQ_eval "S1".data (sanitize_string "S1").data 2 2 2
    (by decide) (by decide) (by decide) (by norm_num)]
  norm_num

lemma scoreOf_S2 : scoreOf "S2" (⟨"S2", "B", 2⟩ : PlexTrack) = 1 := by
  have h0 : scoreOf "S2" (⟨"S2", "B", 2⟩ : PlexTrack)
      = ratioQ "S2".data (sanitize_string "S2").data := rfl
  rw [h0, ratioQ_eval "S2".data (sanitize_string "S2").data 2 2 2
    (by decide) (by decide) (by decide) (by norm_num)]
  norm_num

lemma track_objects_envC6 :
    track_objects envC6 songsC6 = [⟨"S1", "A", 1⟩, ⟨"S2", "B", 2⟩] := by
  have h1 : track_objects envC6 [⟨"S2", "B"⟩] = [⟨"S2", "B", 2⟩] := by
    rw [track_objects_cons_found envC6 ⟨"S2", "B"⟩ [] ⟨"B", [⟨"S2", "B", 2⟩]⟩ []
      ⟨"S2", "B", 2⟩ (by decide)
      (get_best_singleton "S2" ⟨"S2", "B", 2⟩ (by rw [scoreOf_S2]; norm_num))]
    rfl
  show track_objects envC6 (⟨"S1", "A"⟩ :: [⟨"S2", "B"⟩]) = _
  rw [track_objects_cons_found envC6 ⟨"S1", "A"⟩ [⟨"S2", "B"⟩] ⟨"A", [⟨"S1", "A", 1⟩]⟩ []
    ⟨"S1", "A", 1⟩ (by decide)
    (get_best_singleton "S1" ⟨"S1", "A", 1⟩ (by rw [scoreOf_S1]; norm_num))]
  rw [h1]

/-- C6: the claim fails — there is no per-item fallback: when the
batch addItems call raises, add_tracks_to_playlist returns 0 (line 192)
and nothing is retried item by item.  Amended: the reported count is 0
whenever the batch call fails, and never exceeds the number of songs
passed in. -/
theorem c6_add_count (env : Env) (tracks : List Song) (n : Nat)
    (h : add_tracks_to_playlist env tracks = some n) :
    (env.addItemsOk = false → n = 0) ∧ n ≤ tracks.length := by
  unfold add_tracks_to_playlist at h
  by_cases hp : env.playlistExists = false
  · rw [if_pos hp] at h
    exact Option.noConfusion h
  · rw [if_neg hp] at h
    by_cases he : tracks.isEmpty
    · rw [if_pos he] at h
      exact Option.noConfusion h
    · rw [if_neg he] at h
      by_cases ha : env.addItemsOk
      · rw [if_pos ha] at h
        have hn := Option.some.inj h
        constructor
        · intro hfalse
          rw [hfalse] at ha
          exact Bool.noConfusion ha
        · rw [← hn]
          exact le_trans (track_objects_length_le env _) (List.length_filter_le _ _)
      · rw [if_neg ha] at h
        have hn := Option.some.inj h
        exact ⟨fun _ => hn.symm, by rw [← hn]; exact Nat.zero_le _⟩

/-- C6 witness: the amended count bound at the concrete failing batch. -/
theorem c6_add_count_witness :
    (envC6.addItemsOk = false → (0 : Nat) = 0) ∧ (0 : Nat) ≤ songsC6.length :=
  c6_add_count envC6 songsC6 0 (by decide)

/-- C6 counterexample: both confirmed candidates resolve and each would
be individually addable, yet after the batch failure the code reports
0 added; the spec's per-item fallback (mutator_spec_apply) would report
2. -/
theorem c6_batch_failure_returns_zero :
    add_tracks_to_playlist envC6 songsC6 = some 0
    ∧ mutator_spec_apply envC6 songsC6 = some 2
    ∧ ((some 0 : Option Nat) ≠ some 2) := by
  refine ⟨by decide, ?_, by decide⟩
  unfold mutator_spec_apply
  rw [if_neg (show ¬ envC6.playlistExists = false by decide)]
  rw [if_neg (show ¬ songsC6.isEmpty = true by decide)]
  rw [if_neg (show ¬ envC6.addItemsOk = true by decide)]
  have hfilter : songsC6.filter (fun t =>
      decide ((t.artist ++ " - " ++ t.title) ∉
        envC6.items.map (fun p => p.1 ++ " - " ++ p.2))) = songsC6 := by decide
  rw [hfilter, track_objects_envC6]
  decide

/-- Concrete environment: the playlist exists, the song resolves to a
Track object, the prompt is answered y, and the batch addItems call
fails. -/
def envC2 : Env := {
  playlistExists := true, items := [],
  search := fun _ => some [],
  searchArtists := fun _ => [⟨"A", [⟨"T", "A", 1⟩]⟩],
  searchTracks := fun _ => [],
  addItemsOk := false, addItemOk := fun _ => true, confirmed := true }

/-- C2: code bug — the comment at line 208 says "Remove successfully
added tracks from CSV", and the spec says only match+confirm+add-success
entries are pruned, but lines 209-221 drop every row equal to a member
of tracks_to_add = found_tracks regardless of what
add_tracks_to_playlist returned: here addItems failed (0 added) and the
lone CSV row is pruned anyway. -/
theorem c2_prune_ignores_add_failure :
    confirm_and_add_tracks envC2 [] [⟨"T", "A"⟩] [⟨"T", "A"⟩]
      = (([] : List Song), some 0) := by
  decide

/-- Concrete environment whose destination playlist does not exist. -/
def envC9 : Env := {
  playlistExists := false, items := [("A", "T")],
  search := fun _ => some [],
  searchArtists := fun _ => [], searchTracks := fun _ => [],
  addItemsOk := true, addItemOk := fun _ => true, confirmed := true }

/-- C9: the claim fails — a missing playlist does NOT skip
reconciliation: get_current_playlist_songs returns the empty snapshot,
so every backlog song is still searched and matched.  Amended: with a
missing playlist the snapshot is empty and one artist query is issued
for every backlog song, while the confirm/add pass returns early: the
CSV is untouched and no add is attempted (the playlist is never
created; the run continues). -/
theorem c9_missing_playlist_behavior (env : Env)
    (songs missing found csv : List Song)
    (h : env.playlistExists = false) :
    get_current_playlist_songs env = []
    ∧ confirm_and_add_tracks env missing found csv = (csv, none)
    ∧ searchedArtists env songs = songs.map (fun s => sanitize_string s.artist) := by
  have hsnap : get_current_playlist_songs env = [] := by
    unfold get_current_playlist_songs
    rw [h]
    simp
  refine ⟨hsnap, ?_, ?_⟩
  · unfold confirm_and_add_tracks
    rw [if_pos h]
  · unfold searchedArtists
    rw [hsnap]
    induction songs with
    | nil => rfl
    | cons s t ih => simp [searchedArtistsLoop, ih]

/-- C9 witness: the amended behaviour at a concrete missing playlist. -/
theorem c9_missing_playlist_behavior_witness :
    get_current_playlist_songs envC9 = []
    ∧ confirm_and_add_tracks envC9 [] [⟨"T", "A"⟩] [⟨"T", "A"⟩] = ([⟨"T", "A"⟩], none)
    ∧ searchedArtists envC9 [⟨"T", "A"⟩]
        = [(⟨"T", "A"⟩ : Song)].map (fun s => sanitize_string s.artist) :=
  c9_missing_playlist_behavior envC9 [⟨"T", "A"⟩] [] [⟨"T", "A"⟩] [⟨"T", "A"⟩] rfl

/-- C9 counterexample: with the playlist missing, the engine still
issues the artist query for the backlog song, refuting "no matching or
library queries are performed for its backlog". -/
theorem c9_queries_issued_when_missing :
    envC9.playlistExists = false
    ∧ searchedArtists envC9 [⟨"T", "A"⟩] = ["A"]
    ∧ ((["A"] : List String) ≠ []) := by
  refine ⟨rfl, by decide, by decide⟩
